import Mathlib

/-!
Shallow embedding of the transportation / shipment subsystem of
`backend/server.py` (a FastAPI + MongoDB e-commerce backend).

Conventions of the embedding:
* MongoDB collections are Lean lists in insertion order.  `find_one` is
  `List.find?`, `update_one` updates the first matching document
  (`updateFirst`), `update_many` updates every matching document
  (`updateAll`), `insert_one` appends.
* Python `float` money amounts are rationals (`ℚ`); the source never does
  anything float-specific with them.
* Timestamps are natural numbers counted in days (`datetime.utcnow()` is an
  explicit `now` parameter; `timedelta(days = d)` is `+ d`).
* `random.randint(5, 50)` (the simulated distance) and the generated uuid /
  tracking number are explicit parameters.
* `raise HTTPException(...)` is modelled by returning `Except.error` together
  with the database state at the moment of the raise, so that exactly the
  mutations executed before the raise are visible in the returned state.
-/

namespace ECommerce

/-- An HTTP error as raised by `HTTPException(status_code=..., detail=...)`. -/
structure HTTPError where
  status : Nat
  detail : String
deriving Repr, DecidableEq

/-- A line item dict as stored in an order / cart: the `quantity` key may be
absent, in which case `item.get('quantity', 1)` defaults to 1. -/
structure Item where
  quantity : Option Nat
deriving Repr, DecidableEq

/-- `TransportationProvider` document (model class at server.py:116). -/
structure Provider where
  id : String
  name : String
  service_type : String
  base_cost : ℚ
  cost_per_km : ℚ
  estimated_days : Nat
  service_areas : List String
  active : Bool
deriving Repr, DecidableEq

/-- `Vehicle` document (model class at server.py:134). -/
structure Vehicle where
  id : String
  provider_id : String
  vehicle_number : String
  driver_name : String
  vehicle_type : String
  capacity : Nat
  current_location : String
  active : Bool
deriving Repr, DecidableEq

/-- `Shipment` document (model class at server.py:152). -/
structure Shipment where
  id : String
  order_id : String
  provider_id : String
  vehicle_id : Option String
  tracking_number : String
  status : String
  estimated_delivery : Nat
  actual_delivery : Option Nat
  delivery_notes : String
  created_at : Nat
deriving Repr, DecidableEq

/-- `Order` document (model class at server.py:99). -/
structure Order where
  id : String
  user_id : String
  items : List Item
  total_amount : ℚ
  transportation_cost : ℚ
  status : String
  created_at : Nat
  shipping_address : String
  user_name : String
  user_email : String
deriving Repr, DecidableEq

/-- `DeliveryRoute` document (model class at server.py:172). -/
structure DeliveryRoute where
  id : String
  vehicle_id : String
  date : Nat
  shipments : List String
  route_status : String
  total_distance : ℚ
  estimated_duration : Nat
  created_at : Nat
deriving Repr, DecidableEq

/-- Request body `DeliveryRouteCreate` (server.py:182). -/
structure DeliveryRouteCreate where
  vehicle_id : String
  date : Nat
  shipments : List String
  total_distance : ℚ
  estimated_duration : Nat
deriving Repr, DecidableEq

/-- The MongoDB database: the five collections the transportation subsystem
touches, each a list of documents in insertion order. -/
structure DB where
  providers : List Provider
  vehicles : List Vehicle
  shipments : List Shipment
  orders : List Order
  routes : List DeliveryRoute
deriving Repr, DecidableEq

/-- `collection.update_one(filter, {"$set": ...})`: rewrite the first document
matching `p` with `f`; a no-op when nothing matches. -/
def updateFirst (p : α → Bool) (f : α → α) : List α → List α
  | [] => []
  | x :: xs => if p x then f x :: xs else x :: updateFirst p f xs

/-- `collection.update_many(filter, {"$set": ...})`: rewrite every document
matching `p` with `f`. -/
def updateAll (p : α → Bool) (f : α → α) (xs : List α) : List α :=
  xs.map fun x => if p x then f x else x

/-- Round-half-to-even to an integer (Python 3 `round` on an exact value). -/
def roundHalfEven (q : ℚ) : ℤ :=
  if Int.fract q < 1/2 then ⌊q⌋
  else if 1/2 < Int.fract q then ⌊q⌋ + 1
  else if ⌊q⌋ % 2 = 0 then ⌊q⌋ else ⌊q⌋ + 1

/-- Python `round(x, 2)`: round to 2 decimal places, halves to even. -/
def round2 (q : ℚ) : ℚ :=
  (roundHalfEven (q * 100) : ℚ) / 100

/-- The dict returned by `calculate_transportation_cost`; `distance` is `none`
when the fallback branch omits the `"distance"` key. -/
structure CostEstimate where
  provider_id : Option String
  cost : ℚ
  estimated_days : Nat
  provider_name : String
  distance : Option Nat
deriving Repr, DecidableEq

/-- `total_weight = sum(item.get('quantity', 1) for item in items)`. -/
def totalWeight (items : List Item) : Nat :=
  (items.map fun i => i.quantity.getD 1).sum

/-- Cost of a provider for a given distance:
`p["base_cost"] + p["cost_per_km"] * estimated_distance`. -/
def providerCost (d : Nat) (p : Provider) : ℚ :=
  p.base_cost + p.cost_per_km * (d : ℚ)

/-- Python `min(iterable, key=...)`: keeps the current best and replaces it
only on a strictly smaller key, so the first minimum wins. -/
def minByFirst (key : α → ℚ) (x : α) (xs : List α) : α :=
  xs.foldl (fun best y => if key y < key best then y else best) x

/-- `calculate_transportation_cost(shipping_address, items)` (server.py:224),
with the random `estimated_distance` draw made an explicit parameter.  The
`shipping_address` is accepted and ignored exactly as in the source. -/
def calculate_transportation_cost (db : DB) (_shipping_address : String)
    (items : List Item) (estimated_distance : Nat) : CostEstimate :=
  let total_weight := totalWeight items
  match db.providers.filter (·.active) with
  | [] =>
      { provider_id := none
        cost := 50
        estimated_days := 3
        provider_name := "Standard Delivery"
        distance := none }
  | p :: ps =>
      let best_provider := minByFirst (providerCost estimated_distance) p ps
      let cost := providerCost estimated_distance best_provider
      let cost := if total_weight > 5 then cost + ((total_weight : ℚ) - 5) * 10 else cost
      { provider_id := some best_provider.id
        cost := round2 cost
        estimated_days := best_provider.estimated_days
        provider_name := best_provider.name
        distance := some estimated_distance }

/-- `create_shipment_for_order(order_id, provider_id)` (server.py:269).  The
generated uuid `shipment_id`, the generated `tracking_number` and `now` are
explicit parameters.  Never fails: a missing vehicle leaves `vehicle_id` null
and a missing provider defaults `estimated_days` to 3. -/
def create_shipment_for_order (db : DB) (order_id provider_id : String)
    (shipment_id tracking_number : String) (now : Nat) : DB × String :=
  let vehicle := db.vehicles.find? fun v => v.provider_id == provider_id && v.active
  let vehicle_id := vehicle.map (·.id)
  let provider := db.providers.find? fun p => p.id == provider_id
  let estimated_days := match provider with
    | some p => p.estimated_days
    | none => 3
  let shipment : Shipment :=
    { id := shipment_id
      order_id := order_id
      provider_id := provider_id
      vehicle_id := vehicle_id
      tracking_number := tracking_number
      status := "pending"
      estimated_delivery := now + estimated_days
      actual_delivery := none
      delivery_notes := ""
      created_at := now }
  ({ db with shipments := db.shipments ++ [shipment] }, shipment_id)

/-- `PUT /api/admin/transportation/shipments/{shipment_id}` =
`update_shipment_status` (server.py:755).  Mirrors the source's statement
order: when the new status is `"delivered"` the order cascade runs first (and
is skipped when the shipment lookup fails), then `update_one` writes the
shipment, then `matched_count == 0` raises 404.  The final 500 arm is the
`Shipment(**None)` crash FastAPI would turn into an internal error; it is
unreachable because a matched update implies the re-read finds the document. -/
def update_shipment_status (db : DB) (shipment_id : String)
    (upd_status upd_notes : String) (now : Nat) : DB × Except HTTPError Shipment :=
  let db1 :=
    if upd_status == "delivered" then
      match db.shipments.find? (fun s => s.id == shipment_id) with
      | some s =>
          { db with
            orders := updateFirst (fun o => o.id == s.order_id)
              (fun o => { o with status := "delivered" }) db.orders }
      | none => db
    else db
  let setData : Shipment → Shipment := fun s =>
    let s := { s with status := upd_status, delivery_notes := upd_notes }
    if upd_status == "delivered" then { s with actual_delivery := some now } else s
  let matched := db1.shipments.any fun s => s.id == shipment_id
  let db2 := { db1 with shipments := updateFirst (fun s => s.id == shipment_id) setData db1.shipments }
  if matched then
    match db2.shipments.find? (fun s => s.id == shipment_id) with
    | some s => (db2, .ok s)
    | none => (db2, .error ⟨500, "Internal Server Error"⟩)
  else
    (db2, .error ⟨404, "Shipment not found"⟩)

/-- The per-shipment validation loop of `create_delivery_route`: walk the
listed shipment ids in order; the first id whose document is missing raises
404, the first whose status is outside `{"pending", "assigned"}` raises 400. -/
def validateShipments (db : DB) : List String → Option HTTPError
  | [] => none
  | sid :: rest =>
      match db.shipments.find? (fun s => s.id == sid) with
      | none => some ⟨404, "Shipment " ++ sid ++ " not found"⟩
      | some s =>
          if s.status == "pending" || s.status == "assigned" then
            validateShipments db rest
          else
            some ⟨400, "Shipment " ++ sid ++ " is not available for routing"⟩

/-- `POST /api/admin/transportation/routes` = `create_delivery_route`
(server.py:786).  The generated uuid `route_id` and `now` are explicit
parameters.  All validation precedes both mutations (route insert, bulk
shipment update), as in the source. -/
def create_delivery_route (db : DB) (rd : DeliveryRouteCreate)
    (route_id : String) (now : Nat) : DB × Except HTTPError DeliveryRoute :=
  match db.vehicles.find? (fun v => v.id == rd.vehicle_id) with
  | none => (db, .error ⟨404, "Vehicle not found"⟩)
  | some _ =>
      match validateShipments db rd.shipments with
      | some e => (db, .error e)
      | none =>
          let route : DeliveryRoute :=
            { id := route_id
              vehicle_id := rd.vehicle_id
              date := rd.date
              shipments := rd.shipments
              route_status := "planned"
              total_distance := rd.total_distance
              estimated_duration := rd.estimated_duration
              created_at := now }
          let db1 := { db with routes := db.routes ++ [route] }
          let db2 :=
            { db1 with
              shipments := updateAll (fun s => rd.shipments.contains s.id)
                (fun s => { s with status := "assigned", vehicle_id := some rd.vehicle_id })
                db1.shipments }
          (db2, .ok route)

/-- `PUT /api/admin/transportation/routes/{route_id}` = `update_route_status`
(server.py:823).  Statement order as in the source: status whitelist check,
`update_one` on the route, `matched_count == 0` raises 404, then the
`"in_progress"` cascade bulk-updates the member shipments, then the route is
re-read and returned (500 arm unreachable as in `update_shipment_status`). -/
def update_route_status (db : DB) (route_id status : String) :
    DB × Except HTTPError DeliveryRoute :=
  if !(status == "planned" || status == "in_progress" || status == "completed") then
    (db, .error ⟨400, "Invalid status. Must be one of: ['planned', 'in_progress', 'completed']"⟩)
  else
    let matched := db.routes.any fun r => r.id == route_id
    let db1 :=
      { db with
        routes := updateFirst (fun r => r.id == route_id)
          (fun r => { r with route_status := status }) db.routes }
    if !matched then
      (db1, .error ⟨404, "Delivery route not found"⟩)
    else
      let db2 :=
        if status == "in_progress" then
          match db1.routes.find? (fun r => r.id == route_id) with
          | some route =>
              { db1 with
                shipments := updateAll (fun s => route.shipments.contains s.id)
                  (fun s => { s with status := "in_transit" }) db1.shipments }
          | none => db1
        else db1
      match db2.routes.find? (fun r => r.id == route_id) with
      | some route => (db2, .ok route)
      | none => (db2, .error ⟨500, "Internal Server Error"⟩)

/-! ### Lemmas about the embedded MongoDB operations -/

theorem updateFirst_of_find?_eq_none (p : α → Bool) (f : α → α) :
    ∀ l : List α, l.find? p = none → updateFirst p f l = l := by
  intro l
  induction l with
  | nil => intro _; rfl
  | cons x xs ih =>
      intro h
      cases hx : p x with
      | true =>
          rw [List.find?_cons_of_pos _ (by simp [hx])] at h
          exact absurd h (by simp)
      | false =>
          rw [List.find?_cons_of_neg _ (by simp [hx])] at h
          simp [updateFirst, hx, ih h]

theorem find?_updateFirst (p : α → Bool) (f : α → α)
    (hf : ∀ x, p (f x) = p x) :
    ∀ l : List α, (updateFirst p f l).find? p = (l.find? p).map f := by
  intro l
  induction l with
  | nil => rfl
  | cons x xs ih =>
      cases hx : p x with
      | true => simp [updateFirst, hx, List.find?_cons, hf]
      | false => simp [updateFirst, hx, List.find?_cons, ih]

theorem find?_updateAll (p q : α → Bool) (f : α → α)
    (hq : ∀ x, q (f x) = q x) (hpq : ∀ x, q x = true → p x = true) :
    ∀ l : List α, (updateAll p f l).find? q = (l.find? q).map f := by
  intro l
  induction l with
  | nil => rfl
  | cons x xs ih =>
      have hcons : updateAll p f (x :: xs) = (if p x then f x else x) :: updateAll p f xs := rfl
      cases hx : q x with
      | true =>
          rw [hcons, if_pos (by simp [hpq x hx]),
            List.find?_cons_of_pos _ (by simp [hq, hx]),
            List.find?_cons_of_pos _ (by simp [hx])]
          rfl
      | false =>
          have hhead : q (if p x then f x else x) = false := by
            cases hp : p x <;> simp [hp, hq, hx]
          rw [hcons, List.find?_cons_of_neg _ (by simp [hhead]),
            List.find?_cons_of_neg _ (by simp [hx])]
          exact ih

theorem any_eq_true_of_find? (p : α → Bool) (l : List α) (a : α)
    (h : l.find? p = some a) : l.any p = true :=
  List.any_eq_true.2 ⟨a, List.mem_of_find?_eq_some h, List.find?_some h⟩

theorem any_eq_false_of_find? (p : α → Bool) (l : List α)
    (h : l.find? p = none) : l.any p = false := by
  rw [List.find?_eq_none] at h
  simp only [List.any_eq_false]
  intro x hx
  exact h x hx

/-! ### Lemmas about Python `min(..., key=...)` (first minimum wins) -/

theorem minByFirst_cons (key : α → ℚ) (x z : α) (zs : List α) :
    minByFirst key x (z :: zs) = minByFirst key (if key z < key x then z else x) zs := rfl

theorem minByFirst_mem (key : α → ℚ) :
    ∀ (xs : List α) (x : α), minByFirst key x xs ∈ x :: xs := by
  intro xs
  induction xs with
  | nil => intro x; simp [minByFirst]
  | cons z zs ih =>
      intro x
      rw [minByFirst_cons]
      rcases List.mem_cons.1 (ih (if key z < key x then z else x)) with h | h
      · rw [h]
        by_cases hz : key z < key x <;> simp [hz]
      · simp [List.mem_cons.2 (Or.inr (List.mem_cons.2 (Or.inr h)))]

theorem minByFirst_le (key : α → ℚ) :
    ∀ (xs : List α) (x y : α), y ∈ x :: xs → key (minByFirst key x xs) ≤ key y := by
  intro xs
  induction xs with
  | nil =>
      intro x y hy
      rcases List.mem_cons.1 hy with h | h
      · subst h; exact le_refl _
      · exact absurd h (List.not_mem_nil y)
  | cons z zs ih =>
      intro x y hy
      rw [minByFirst_cons]
      have hx'x : key (if key z < key x then z else x) ≤ key x := by
        by_cases hz : key z < key x
        · rw [if_pos hz]; exact le_of_lt hz
        · rw [if_neg hz]
      have hx'z : key (if key z < key x then z else x) ≤ key z := by
        by_cases hz : key z < key x
        · rw [if_pos hz]
        · rw [if_neg hz]; exact le_of_not_lt hz
      have hmin : key (minByFirst key (if key z < key x then z else x) zs) ≤
          key (if key z < key x then z else x) :=
        ih _ _ (List.mem_cons_self _ _)
      rcases List.mem_cons.1 hy with h | h
      · subst h; exact le_trans hmin hx'x
      · rcases List.mem_cons.1 h with h2 | h2
        · subst h2; exact le_trans hmin hx'z
        · exact ih _ y (List.mem_cons.2 (Or.inr h2))

theorem minByFirst_first (key : α → ℚ) :
    ∀ (xs : List α) (x : α),
      (x :: xs).find? (fun y => key y ≤ key (minByFirst key x xs)) =
        some (minByFirst key x xs) := by
  intro xs
  induction xs with
  | nil =>
      intro x
      rw [List.find?_cons_of_pos _ (by simp [minByFirst])]
      rfl
  | cons z zs ih =>
      intro x
      rw [minByFirst_cons]
      by_cases hz : key z < key x
      · rw [if_pos hz]
        have hbest : key (minByFirst key z zs) ≤ key z :=
          minByFirst_le key zs z z (List.mem_cons_self _ _)
        have hxfalse : ¬ (key x ≤ key (minByFirst key z zs)) := by
          intro hc
          exact absurd (lt_of_lt_of_le hz hc) (not_lt.2 hbest)
        rw [List.find?_cons_of_neg _ (by simp [hxfalse])]
        exact ih z
      · rw [if_neg hz]
        by_cases hxp : key x ≤ key (minByFirst key x zs)
        · have h := ih x
          rw [List.find?_cons_of_pos _ (by simp [hxp])] at h
          rw [List.find?_cons_of_pos _ (by simp [hxp])]
          exact h
        · have hzfalse : ¬ (key z ≤ key (minByFirst key x zs)) := by
            intro hc
            exact hxp (le_trans (le_of_not_lt hz) hc)
          have h := ih x
          rw [List.find?_cons_of_neg _ (by simp [hxp])] at h
          rw [List.find?_cons_of_neg _ (by simp [hxp]),
            List.find?_cons_of_neg _ (by simp [hzfalse])]
          exact h

/-- Rounding an integer changes nothing. -/
theorem roundHalfEven_intCast (n : ℤ) : roundHalfEven (n : ℚ) = n := by
  simp [roundHalfEven, Int.fract_intCast, Int.floor_intCast]

/-- Rounding an integer to two decimal places changes nothing. -/
theorem round2_intCast (n : ℤ) : round2 (n : ℚ) = n := by
  have h : ((n : ℚ) * 100) = ((n * 100 : ℤ) : ℚ) := by push_cast; ring
  rw [round2, h, roundHalfEven_intCast]
  push_cast
  field_simp

/-! ### Concrete fixtures used by witnesses -/

/-- Provider A of the spec's worked example: base 80, 2.5 per km. -/
def provA : Provider :=
  { id := "A", name := "Alpha Logistics", service_type := "standard",
    base_cost := 80, cost_per_km := 2.5, estimated_days := 4,
    service_areas := ["Mumbai"], active := true }

/-- Provider B of the spec's worked example: base 40, 1.5 per km. -/
def provB : Provider :=
  { id := "B", name := "Bharat Express", service_type := "express",
    base_cost := 40, cost_per_km := 1.5, estimated_days := 2,
    service_areas := ["Delhi"], active := true }

/-- Provider C of the spec's worked example: base 150, 5.0 per km. -/
def provC : Provider :=
  { id := "C", name := "Cargo Prime", service_type := "overnight",
    base_cost := 150, cost_per_km := 5.0, estimated_days := 1,
    service_areas := ["Pune"], active := true }

/-- Database holding exactly the three example providers, all active. -/
def dbABC : DB :=
  { providers := [provA, provB, provC], vehicles := [], shipments := [],
    orders := [], routes := [] }

/-- Database whose only provider is inactive (so the active filter is empty). -/
def dbNoActive : DB :=
  { providers := [{ provA with active := false }], vehicles := [],
    shipments := [], orders := [], routes := [] }

/-- Database holding only provider B, active. -/
def dbOnlyB : DB :=
  { providers := [provB], vehicles := [], shipments := [], orders := [],
    routes := [] }

/-- Line items of total quantity 8: the middle dict has no `quantity` key,
which counts as 1. -/
def itemsW : List Item := [⟨some 5⟩, ⟨none⟩, ⟨some 2⟩]

/-! ### C3, C4, C5 — the cost estimator -/

/-- C3: with a non-empty active provider list, the estimator selects the
provider minimizing `base_cost + cost_per_km * distance`; the selected
provider is a member of the list, attains the minimum cost, and is the first
element of the list attaining it (Python `min` keeps the first minimum). -/
theorem transportation_cost_cheapest_provider (db : DB) (addr : String)
    (items : List Item) (d : Nat) (p : Provider) (ps : List Provider)
    (h : db.providers.filter (·.active) = p :: ps) :
    (calculate_transportation_cost db addr items d).provider_id =
      some (minByFirst (providerCost d) p ps).id ∧
    minByFirst (providerCost d) p ps ∈ p :: ps ∧
    (∀ q ∈ p :: ps, providerCost d (minByFirst (providerCost d) p ps) ≤ providerCost d q) ∧
    (p :: ps).find?
        (fun q => providerCost d q ≤ providerCost d (minByFirst (providerCost d) p ps)) =
      some (minByFirst (providerCost d) p ps) := by
  refine ⟨?_, minByFirst_mem _ _ _, ?_, minByFirst_first _ _ _⟩
  · by_cases hw : totalWeight items > 5 <;> simp [calculate_transportation_cost, h, hw]
  · intro q hq
    exact minByFirst_le _ ps p q hq

/-- C3 witness: for A(80, 2.5), B(40, 1.5), C(150, 5.0) and distance 20 km,
provider B is selected. -/
theorem transportation_cost_cheapest_provider_witness :
    dbABC.providers.filter (·.active) = provA :: [provB, provC] ∧
    (calculate_transportation_cost dbABC "MG Road, Bengaluru" [] 20).provider_id =
      some "B" := by
  have h := transportation_cost_cheapest_provider dbABC "MG Road, Bengaluru" [] 20
    provA [provB, provC] (by simp [dbABC, provA, provB, provC])
  refine ⟨by simp [dbABC, provA, provB, provC], ?_⟩
  rw [h.1]
  norm_num [minByFirst, providerCost, provA, provB, provC]

/-- C4: with a non-empty active provider list the returned cost is
`base_cost + cost_per_km * distance` of the selected provider, plus
`(total_weight - 5) * 10` exactly when the total weight (sum of item
quantities, a missing quantity counting as 1) exceeds 5, rounded to two
decimal places. -/
theorem transportation_cost_formula (db : DB) (addr : String)
    (items : List Item) (d : Nat) (p : Provider) (ps : List Provider)
    (h : db.providers.filter (·.active) = p :: ps) :
    (calculate_transportation_cost db addr items d).cost =
      round2 (providerCost d (minByFirst (providerCost d) p ps) +
        (if 5 < totalWeight items then ((totalWeight items : ℚ) - 5) * 10 else 0)) := by
  by_cases hw : 5 < totalWeight items <;>
    simp [calculate_transportation_cost, h, hw]

/-- C4 witness: provider B alone, distance 20, items of total quantity 8 (one
dict missing its quantity key): the surcharge is (8-5)*10 = 30 and the cost is
round2 (40 + 1.5*20 + 30) = 100. -/
theorem transportation_cost_formula_witness :
    dbOnlyB.providers.filter (·.active) = provB :: [] ∧
    totalWeight itemsW = 8 ∧
    ((totalWeight itemsW : ℚ) - 5) * 10 = 30 ∧
    (calculate_transportation_cost dbOnlyB "Connaught Place, Delhi" itemsW 20).cost = 100 := by
  have h := transportation_cost_formula dbOnlyB "Connaught Place, Delhi" itemsW 20
    provB [] (by simp [dbOnlyB, provB])
  have hw : totalWeight itemsW = 8 := by simp [totalWeight, itemsW]
  refine ⟨by simp [dbOnlyB, provB], hw, by rw [hw]; norm_num, ?_⟩
  rw [h]
  have harg : providerCost 20 (minByFirst (providerCost 20) provB []) +
      (if 5 < totalWeight itemsW then ((totalWeight itemsW : ℚ) - 5) * 10 else 0) =
      ((100 : ℤ) : ℚ) := by
    rw [hw]
    norm_num [minByFirst, providerCost, provB]
  rw [harg, round2_intCast]
  norm_num

/-- C5: with no active provider, the estimator returns exactly the fallback
`{provider_id := null, cost := 50.0, estimated_days := 3,
provider_name := "Standard Delivery"}` with no distance field, for every
destination and item list. -/
theorem transportation_cost_fallback (db : DB) (addr : String)
    (items : List Item) (d : Nat)
    (h : db.providers.filter (·.active) = []) :
    calculate_transportation_cost db addr items d =
      { provider_id := none, cost := 50, estimated_days := 3,
        provider_name := "Standard Delivery", distance := none } := by
  simp [calculate_transportation_cost, h]

/-- C5 witness: a database whose only provider is inactive, with items of
total quantity 8 (no surcharge is applied to the fallback). -/
theorem transportation_cost_fallback_witness :
    dbNoActive.providers.filter (·.active) = [] ∧
    calculate_transportation_cost dbNoActive "Marine Drive, Mumbai" itemsW 20 =
      { provider_id := none, cost := 50, estimated_days := 3,
        provider_name := "Standard Delivery", distance := none } :=
  ⟨by simp [dbNoActive, provA],
    transportation_cost_fallback dbNoActive "Marine Drive, Mumbai" itemsW 20
      (by simp [dbNoActive, provA])⟩

/-! ### C8 — shipment creation -/

/-- C8: `create_shipment_for_order` always appends exactly one new shipment
with status `"pending"`, null `actual_delivery`, empty `delivery_notes`, the
generated tracking number, `vehicle_id` the id of the first active vehicle of
the provider (null when there is none), and
`estimated_delivery = now + estimated_days`, the provider's days or 3 when
the provider id does not resolve; no other collection changes and it never
fails. -/
theorem create_shipment_for_order_fields (db : DB) (oid pid sid trk : String)
    (now : Nat) :
    (create_shipment_for_order db oid pid sid trk now).2 = sid ∧
    (create_shipment_for_order db oid pid sid trk now).1.shipments =
      db.shipments ++
        [{ id := sid, order_id := oid, provider_id := pid,
           vehicle_id :=
             (db.vehicles.find? fun v => v.provider_id == pid && v.active).map (·.id),
           tracking_number := trk, status := "pending",
           estimated_delivery :=
             now + ((db.providers.find? fun p => p.id == pid).map
               (·.estimated_days)).getD 3,
           actual_delivery := none, delivery_notes := "", created_at := now }] ∧
    (create_shipment_for_order db oid pid sid trk now).1.orders = db.orders ∧
    (create_shipment_for_order db oid pid sid trk now).1.providers = db.providers ∧
    (create_shipment_for_order db oid pid sid trk now).1.vehicles = db.vehicles ∧
    (create_shipment_for_order db oid pid sid trk now).1.routes = db.routes := by
  cases hp : db.providers.find? fun p => p.id == pid <;>
    simp [create_shipment_for_order, hp]

/-! ### C1, C9 — shipment status updates -/

/-- When the new status is not `"delivered"`, the state after
`update_shipment_status` only rewrites the first matching shipment with the
new status and notes. -/
theorem update_shipment_status_fst_not_delivered (db : DB) (sid st notes : String)
    (now : Nat) (h : st ≠ "delivered") :
    (update_shipment_status db sid st notes now).1 =
      { db with
        shipments := updateFirst (fun t => t.id == sid)
          (fun t => { t with status := st, delivery_notes := notes }) db.shipments } := by
  have hb : (st == "delivered") = false := by simp [h]
  simp only [update_shipment_status, hb, Bool.false_eq_true, if_false]
  split
  · split <;> rfl
  · rfl

/-- When the new status is `"delivered"` and the shipment resolves, the state
after `update_shipment_status` rewrites the parent order's status and the
shipment's status, notes and `actual_delivery`. -/
theorem update_shipment_status_fst_delivered (db : DB) (sid notes : String)
    (now : Nat) (s : Shipment)
    (hs : db.shipments.find? (fun t => t.id == sid) = some s) :
    (update_shipment_status db sid "delivered" notes now).1 =
      { db with
        orders := updateFirst (fun o => o.id == s.order_id)
          (fun o => { o with status := "delivered" }) db.orders,
        shipments := updateFirst (fun t => t.id == sid)
          (fun t =>
            { t with
              status := "delivered"
              delivery_notes := notes
              actual_delivery := some now }) db.shipments } := by
  simp only [update_shipment_status, hs, beq_self_eq_true, if_true]
  split
  · split <;> rfl
  · rfl

/-- C1: for an existing shipment whose parent order exists, updating to
`"delivered"` stores `actual_delivery = some now` (non-null) and sets the
parent order's status to `"delivered"`; updating to any other status keeps
`actual_delivery` exactly as it was (so a null value stays null) and leaves
the orders collection untouched. -/
theorem update_shipment_status_delivered_cascade (db : DB) (sid notes st : String)
    (now : Nat) (s : Shipment) (o : Order)
    (hs : db.shipments.find? (fun t => t.id == sid) = some s)
    (ho : db.orders.find? (fun t => t.id == s.order_id) = some o) :
    ((update_shipment_status db sid "delivered" notes now).1.shipments.find?
        (fun t => t.id == sid) =
      some { s with
             status := "delivered"
             delivery_notes := notes
             actual_delivery := some now } ∧
     (update_shipment_status db sid "delivered" notes now).1.orders.find?
        (fun t => t.id == s.order_id) =
      some { o with status := "delivered" }) ∧
    (st ≠ "delivered" →
      (update_shipment_status db sid st notes now).1.shipments.find?
          (fun t => t.id == sid) =
        some { s with status := st, delivery_notes := notes } ∧
      ({ s with status := st, delivery_notes := notes } : Shipment).actual_delivery =
        s.actual_delivery ∧
      (update_shipment_status db sid st notes now).1.orders = db.orders) := by
  refine ⟨⟨?_, ?_⟩, ?_⟩
  · rw [update_shipment_status_fst_delivered db sid notes now s hs]
    show (updateFirst (fun t => t.id == sid) _ db.shipments).find? _ = _
    rw [find?_updateFirst]
    · rw [hs]; rfl
    · exact fun x => rfl
  · rw [update_shipment_status_fst_delivered db sid notes now s hs]
    show (updateFirst (fun t => t.id == s.order_id) _ db.orders).find? _ = _
    rw [find?_updateFirst]
    · rw [ho]; rfl
    · exact fun x => rfl
  · intro h
    refine ⟨?_, rfl, ?_⟩
    · rw [update_shipment_status_fst_not_delivered db sid st notes now h]
      show (updateFirst (fun t => t.id == sid) _ db.shipments).find? _ = _
      rw [find?_updateFirst]
      · rw [hs]; rfl
      · exact fun x => rfl
    · rw [update_shipment_status_fst_not_delivered db sid st notes now h]

/-- C9: when the shipment id does not resolve, `update_shipment_status`
returns 404 and leaves the database exactly as it was, for every new status
including `"delivered"` (the order cascade is skipped because the shipment
lookup fails). -/
theorem update_shipment_status_not_found (db : DB) (sid st notes : String)
    (now : Nat) (h : db.shipments.find? (fun t => t.id == sid) = none) :
    update_shipment_status db sid st notes now =
      (db, .error ⟨404, "Shipment not found"⟩) := by
  have hany := any_eq_false_of_find? _ _ h
  by_cases hd : st = "delivered"
  · subst hd
    simp [update_shipment_status, h, hany, updateFirst_of_find?_eq_none _ _ _ h]
  · have hb : (st == "delivered") = false := by simp [hd]
    simp [update_shipment_status, hb, hany, updateFirst_of_find?_eq_none _ _ _ h]

/-! ### Fixtures for the shipment / route claims -/

/-- A confirmed order. -/
def ordO : Order :=
  { id := "o1", user_id := "u1", items := [⟨some 2⟩], total_amount := 499,
    transportation_cost := 70, status := "confirmed", created_at := 0,
    shipping_address := "MG Road, Bengaluru", user_name := "Asha",
    user_email := "asha@example.com" }

/-- A pending shipment for `ordO`. -/
def shipS1 : Shipment :=
  { id := "s1", order_id := "o1", provider_id := "B", vehicle_id := none,
    tracking_number := "TRK1A2B3C4D", status := "pending",
    estimated_delivery := 2, actual_delivery := none, delivery_notes := "",
    created_at := 0 }

/-- An assigned shipment. -/
def shipS2 : Shipment :=
  { shipS1 with id := "s2", status := "assigned", tracking_number := "TRK5E6F7G8H" }

/-- A shipment already in transit (not routable). -/
def shipBad : Shipment :=
  { shipS1 with id := "sbad", status := "in_transit", tracking_number := "TRKBAD00001" }

/-- A delivered shipment. -/
def shipDone : Shipment :=
  { shipS1 with
    id := "s3"
    status := "delivered"
    actual_delivery := some 2
    tracking_number := "TRKDONE0001" }

/-- An active vehicle of provider B. -/
def vehV1 : Vehicle :=
  { id := "v1", provider_id := "B", vehicle_number := "KA01AB1234",
    driver_name := "Ravi", vehicle_type := "van", capacity := 10,
    current_location := "Depot 7", active := true }

/-- A completed route over `s1` and the delivered `s3`. -/
def routeR1 : DeliveryRoute :=
  { id := "r1", vehicle_id := "v1", date := 1, shipments := ["s1", "s3"],
    route_status := "completed", total_distance := 12,
    estimated_duration := 45, created_at := 0 }

/-- The main fixture database for the shipment / route claims. -/
def dbMain : DB :=
  { providers := [provB], vehicles := [vehV1],
    shipments := [shipS1, shipS2, shipBad, shipDone], orders := [ordO],
    routes := [routeR1] }

/-- C1 witness: on `dbMain`, delivering `s1` stores `actual_delivery = 9` and
flips order `o1` to delivered, while updating `s1` to `"in_transit"` keeps
`actual_delivery` null and leaves the orders untouched. -/
theorem update_shipment_status_delivered_cascade_witness :
    ((update_shipment_status dbMain "s1" "delivered" "left with guard" 9).1.shipments.find?
        (fun t => t.id == "s1") =
      some { shipS1 with
             status := "delivered"
             delivery_notes := "left with guard"
             actual_delivery := some 9 } ∧
     (update_shipment_status dbMain "s1" "delivered" "left with guard" 9).1.orders.find?
        (fun t => t.id == shipS1.order_id) =
      some { ordO with status := "delivered" }) ∧
    ((update_shipment_status dbMain "s1" "in_transit" "left with guard" 9).1.shipments.find?
        (fun t => t.id == "s1") =
      some { shipS1 with status := "in_transit", delivery_notes := "left with guard" } ∧
     ({ shipS1 with status := "in_transit", delivery_notes := "left with guard" } : Shipment).actual_delivery =
       shipS1.actual_delivery ∧
     (update_shipment_status dbMain "s1" "in_transit" "left with guard" 9).1.orders =
       dbMain.orders) := by
  have h := update_shipment_status_delivered_cascade dbMain "s1" "left with guard"
    "in_transit" 9 shipS1 ordO rfl rfl
  exact ⟨h.1, h.2 (by decide)⟩

/-- C9 witness: no shipment of `dbMain` has id `"ghost"`, so even a
`"delivered"` update returns 404 with the database unchanged. -/
theorem update_shipment_status_not_found_witness :
    dbMain.shipments.find? (fun t => t.id == "ghost") = none ∧
    update_shipment_status dbMain "ghost" "delivered" "no such shipment" 9 =
      (dbMain, .error ⟨404, "Shipment not found"⟩) :=
  ⟨rfl, update_shipment_status_not_found dbMain "ghost" "delivered" "no such shipment" 9 rfl⟩

/-! ### C2, C6 — route creation -/

/-- A shipment id that resolves to a shipment whose status is routable
(`"pending"` or `"assigned"`). -/
def validShipment (db : DB) (sid : String) : Prop :=
  ∃ s, db.shipments.find? (fun t => t.id == sid) = some s ∧
    (s.status = "pending" ∨ s.status = "assigned")

/-- The validation loop skips a prefix of valid shipment ids. -/
theorem validateShipments_append (db : DB) (pre rest : List String)
    (h : ∀ sid ∈ pre, validShipment db sid) :
    validateShipments db (pre ++ rest) = validateShipments db rest := by
  induction pre with
  | nil => rfl
  | cons a pre ih =>
      obtain ⟨s, hs, hstat⟩ := h a (List.mem_cons_self _ _)
      have hcond : (s.status == "pending" || s.status == "assigned") = true := by
        rcases hstat with h1 | h1 <;> simp [h1]
      have ih2 := ih fun sid hsid => h sid (List.mem_cons_of_mem _ hsid)
      simp [validateShipments, hs, hcond, ih2]

/-- The validation loop accepts a list of valid shipment ids. -/
theorem validateShipments_eq_none (db : DB) (ids : List String)
    (h : ∀ sid ∈ ids, validShipment db sid) :
    validateShipments db ids = none := by
  have happ := validateShipments_append db ids [] h
  simpa using happ

/-- C2: `create_delivery_route` validates before mutating.  A missing vehicle
fails 404 ("Vehicle not found"); whenever the result is an error the returned
state is exactly the input state (no route persisted, no shipment mutated);
when the first offending entry of the shipment list is a missing id the error
is 404 naming that id; when it is a resolvable shipment whose status is
outside `{"pending", "assigned"}` the error is 400 naming that id. -/
theorem create_delivery_route_validation (db : DB) (rd : DeliveryRouteCreate)
    (rid : String) (now : Nat) :
    (db.vehicles.find? (fun v => v.id == rd.vehicle_id) = none →
      create_delivery_route db rd rid now = (db, .error ⟨404, "Vehicle not found"⟩)) ∧
    (∀ e, (create_delivery_route db rd rid now).2 = .error e →
      (create_delivery_route db rd rid now).1 = db) ∧
    (∀ pre sid post, rd.shipments = pre ++ sid :: post →
      db.vehicles.find? (fun v => v.id == rd.vehicle_id) ≠ none →
      (∀ x ∈ pre, validShipment db x) →
      db.shipments.find? (fun t => t.id == sid) = none →
      (create_delivery_route db rd rid now).2 =
        .error ⟨404, "Shipment " ++ sid ++ " not found"⟩) ∧
    (∀ pre sid post s, rd.shipments = pre ++ sid :: post →
      db.vehicles.find? (fun v => v.id == rd.vehicle_id) ≠ none →
      (∀ x ∈ pre, validShipment db x) →
      db.shipments.find? (fun t => t.id == sid) = some s →
      s.status ≠ "pending" → s.status ≠ "assigned" →
      (create_delivery_route db rd rid now).2 =
        .error ⟨400, "Shipment " ++ sid ++ " is not available for routing"⟩) := by
  refine ⟨?_, ?_, ?_, ?_⟩
  · intro h
    simp [create_delivery_route, h]
  · intro e he
    cases hv : db.vehicles.find? (fun v => v.id == rd.vehicle_id) with
    | none => simp [create_delivery_route, hv]
    | some v =>
        cases hval : validateShipments db rd.shipments with
        | none => simp [create_delivery_route, hv, hval] at he
        | some err => simp [create_delivery_route, hv, hval]
  · intro pre sid post hsplit hveh hpre hmiss
    obtain ⟨v, hv⟩ := Option.ne_none_iff_exists'.1 hveh
    have hval : validateShipments db rd.shipments =
        some ⟨404, "Shipment " ++ sid ++ " not found"⟩ := by
      rw [hsplit, validateShipments_append db pre _ hpre]
      simp [validateShipments, hmiss]
    simp [create_delivery_route, hv, hval]
  · intro pre sid post s hsplit hveh hpre hfound hnp hna
    obtain ⟨v, hv⟩ := Option.ne_none_iff_exists'.1 hveh
    have hcond : (s.status == "pending" || s.status == "assigned") = false := by
      simp [hnp, hna]
    have hval : validateShipments db rd.shipments =
        some ⟨400, "Shipment " ++ sid ++ " is not available for routing"⟩ := by
      rw [hsplit, validateShipments_append db pre _ hpre]
      simp [validateShipments, hfound, hcond]
    simp [create_delivery_route, hv, hval]

/-- The ineligible route-creation request of the C2 witness: `s1` is pending
(valid) but `sbad` is in transit. -/
def rdBad : DeliveryRouteCreate :=
  { vehicle_id := "v1", date := 1, shipments := ["s1", "sbad"],
    total_distance := 10, estimated_duration := 30 }

/-- C2 witness: creating a route over `[s1, sbad]` on `dbMain` fails 400
naming `sbad` and leaves the database exactly as it was. -/
theorem create_delivery_route_validation_witness :
    (create_delivery_route dbMain rdBad "r9" 5).2 =
      .error ⟨400, "Shipment sbad is not available for routing"⟩ ∧
    (create_delivery_route dbMain rdBad "r9" 5).1 = dbMain := by
  have h := create_delivery_route_validation dbMain rdBad "r9" 5
  have hpre : ∀ x ∈ ["s1"], validShipment dbMain x := by
    intro x hx
    rcases List.mem_singleton.1 hx with rfl
    exact ⟨shipS1, rfl, Or.inl rfl⟩
  have herr := h.2.2.2 ["s1"] "sbad" [] shipBad rfl (by simp [dbMain, vehV1, rdBad])
    hpre rfl (by decide) (by decide)
  exact ⟨herr, h.2.1 _ herr⟩

/-- C6: when the vehicle resolves and every listed shipment is valid,
`create_delivery_route` persists the route with `route_status = "planned"`
and every listed shipment ends with status `"assigned"` and `vehicle_id`
equal to the route's vehicle id. -/
theorem create_delivery_route_success (db : DB) (rd : DeliveryRouteCreate)
    (rid : String) (now : Nat) (v : Vehicle)
    (hv : db.vehicles.find? (fun t => t.id == rd.vehicle_id) = some v)
    (hall : ∀ sid ∈ rd.shipments, validShipment db sid) :
    (create_delivery_route db rd rid now).2 =
      .ok { id := rid, vehicle_id := rd.vehicle_id, date := rd.date,
            shipments := rd.shipments, route_status := "planned",
            total_distance := rd.total_distance,
            estimated_duration := rd.estimated_duration, created_at := now } ∧
    (create_delivery_route db rd rid now).1.routes =
      db.routes ++
        [{ id := rid, vehicle_id := rd.vehicle_id, date := rd.date,
           shipments := rd.shipments, route_status := "planned",
           total_distance := rd.total_distance,
           estimated_duration := rd.estimated_duration, created_at := now }] ∧
    (∀ sid ∈ rd.shipments, ∃ s,
      db.shipments.find? (fun t => t.id == sid) = some s ∧
      (create_delivery_route db rd rid now).1.shipments.find?
          (fun t => t.id == sid) =
        some { s with status := "assigned", vehicle_id := some rd.vehicle_id }) := by
  have hnone := validateShipments_eq_none db rd.shipments hall
  refine ⟨by simp [create_delivery_route, hv, hnone],
    by simp [create_delivery_route, hv, hnone], ?_⟩
  intro sid hsid
  obtain ⟨s, hs, _⟩ := hall sid hsid
  refine ⟨s, hs, ?_⟩
  have hshape : (create_delivery_route db rd rid now).1.shipments =
      updateAll (fun t => rd.shipments.contains t.id)
        (fun t => { t with status := "assigned", vehicle_id := some rd.vehicle_id })
        db.shipments := by
    simp [create_delivery_route, hv, hnone]
  rw [hshape, find?_updateAll]
  · rw [hs]; rfl
  · exact fun x => rfl
  · intro x hx
    have hxid : x.id = sid := by simpa using hx
    rw [hxid]
    exact List.elem_eq_true_of_mem hsid

/-- The eligible route-creation request of the C6 witness: `s1` is pending
and `s2` is assigned. -/
def rdGood : DeliveryRouteCreate :=
  { vehicle_id := "v1", date := 1, shipments := ["s1", "s2"],
    total_distance := 10, estimated_duration := 30 }

/-- C6 witness: routing `[s1, s2]` under vehicle `v1` on `dbMain` returns the
planned route and both shipments end assigned to `v1`. -/
theorem create_delivery_route_success_witness :
    (create_delivery_route dbMain rdGood "r2" 5).2 =
      .ok { id := "r2", vehicle_id := rdGood.vehicle_id, date := rdGood.date,
            shipments := rdGood.shipments, route_status := "planned",
            total_distance := rdGood.total_distance,
            estimated_duration := rdGood.estimated_duration, created_at := 5 } ∧
    (∃ s, dbMain.shipments.find? (fun t => t.id == "s1") = some s ∧
      (create_delivery_route dbMain rdGood "r2" 5).1.shipments.find?
          (fun t => t.id == "s1") =
        some { s with status := "assigned", vehicle_id := some rdGood.vehicle_id }) ∧
    (∃ s, dbMain.shipments.find? (fun t => t.id == "s2") = some s ∧
      (create_delivery_route dbMain rdGood "r2" 5).1.shipments.find?
          (fun t => t.id == "s2") =
        some { s with status := "assigned", vehicle_id := some rdGood.vehicle_id }) := by
  have hall : ∀ sid ∈ rdGood.shipments, validShipment dbMain sid := by
    intro sid hsid
    rcases List.mem_cons.1 hsid with rfl | hsid2
    · exact ⟨shipS1, rfl, Or.inl rfl⟩
    · rcases List.mem_singleton.1 hsid2 with rfl
      exact ⟨shipS2, rfl, Or.inr rfl⟩
  have h := create_delivery_route_success dbMain rdGood "r2" 5 vehV1 rfl hall
  exact ⟨h.1, h.2.2 "s1" (by simp [rdGood]), h.2.2 "s2" (by simp [rdGood])⟩

/-! ### C7, C10 — route status updates -/

/-- Unfolding of `update_route_status` for `"in_progress"` on a resolvable
route: the route's status is rewritten, every member shipment is set to
`"in_transit"`, and the updated route is returned. -/
theorem update_route_status_eq_in_progress (db : DB) (rid : String)
    (r : DeliveryRoute) (hr : db.routes.find? (fun t => t.id == rid) = some r) :
    update_route_status db rid "in_progress" =
      ({ db with
         routes := updateFirst (fun t => t.id == rid)
           (fun t => { t with route_status := "in_progress" }) db.routes
         shipments := updateAll (fun s => r.shipments.contains s.id)
           (fun s => { s with status := "in_transit" }) db.shipments },
       .ok { r with route_status := "in_progress" }) := by
  have hany := any_eq_true_of_find? _ _ _ hr
  have hfind : (updateFirst (fun t => t.id == rid)
      (fun t => { t with route_status := "in_progress" }) db.routes).find?
      (fun t => t.id == rid) = some { r with route_status := "in_progress" } := by
    rw [find?_updateFirst]
    · rw [hr]; rfl
    · exact fun x => rfl
  simp [update_route_status, hany, hfind]

/-- Unfolding of `update_route_status` for `"planned"` or `"completed"` on a
resolvable route: only the route's status is rewritten; no shipment cascade
runs. -/
theorem update_route_status_eq_no_cascade (db : DB) (rid st : String)
    (r : DeliveryRoute) (hr : db.routes.find? (fun t => t.id == rid) = some r)
    (hst : st = "planned" ∨ st = "completed") :
    update_route_status db rid st =
      ({ db with
         routes := updateFirst (fun t => t.id == rid)
           (fun t => { t with route_status := st }) db.routes },
       .ok { r with route_status := st }) := by
  have hany := any_eq_true_of_find? _ _ _ hr
  have hfind : (updateFirst (fun t => t.id == rid)
      (fun t => { t with route_status := st }) db.routes).find?
      (fun t => t.id == rid) = some { r with route_status := st } := by
    rw [find?_updateFirst]
    · rw [hr]; rfl
    · exact fun x => rfl
  rcases hst with rfl | rfl <;> simp [update_route_status, hany, hfind]

/-- C7: `update_route_status` rejects any status outside
`{planned, in_progress, completed}` with 400 listing the valid set, rejects
an unknown route id with 404 leaving the state unchanged, and on success
cascades `"in_progress"` to every member shipment unconditionally while
`"planned"` and `"completed"` leave the shipments untouched. -/
theorem update_route_status_errors_and_cascade (db : DB) (rid st : String) :
    (¬(st = "planned" ∨ st = "in_progress" ∨ st = "completed") →
      update_route_status db rid st =
        (db, .error ⟨400,
          "Invalid status. Must be one of: ['planned', 'in_progress', 'completed']"⟩)) ∧
    ((st = "planned" ∨ st = "in_progress" ∨ st = "completed") →
      db.routes.find? (fun t => t.id == rid) = none →
      update_route_status db rid st = (db, .error ⟨404, "Delivery route not found"⟩)) ∧
    (∀ r, db.routes.find? (fun t => t.id == rid) = some r →
      (st = "in_progress" →
        (update_route_status db rid st).1.shipments =
          db.shipments.map (fun s =>
            if r.shipments.contains s.id then { s with status := "in_transit" } else s)) ∧
      ((st = "planned" ∨ st = "completed") →
        (update_route_status db rid st).1.shipments = db.shipments)) := by
  refine ⟨?_, ?_, ?_⟩
  · intro h
    push_neg at h
    obtain ⟨h1, h2, h3⟩ := h
    have b1 : (st == "planned") = false := by simp [h1]
    have b2 : (st == "in_progress") = false := by simp [h2]
    have b3 : (st == "completed") = false := by simp [h3]
    simp [update_route_status, b1, b2, b3]
  · intro hval hnone
    have hany := any_eq_false_of_find? _ _ hnone
    have hupd := updateFirst_of_find?_eq_none (fun t => t.id == rid)
      (fun t => { t with route_status := st }) db.routes hnone
    rcases hval with rfl | rfl | rfl <;>
      simp [update_route_status, hany, hupd, hnone]
  · intro r hr
    constructor
    · intro hst
      subst hst
      rw [update_route_status_eq_in_progress db rid r hr]
      rfl
    · intro hst
      rw [update_route_status_eq_no_cascade db rid st r hr hst]

/-- C7 witness: on `dbMain`, status `"cancelled"` is rejected listing the
valid set, route `"r9"` is unknown (404, state unchanged), and on route `r1`
the `"in_progress"` cascade rewrites exactly its member shipments `s1` and
`s3` while `"completed"` touches none. -/
theorem update_route_status_errors_and_cascade_witness :
    update_route_status dbMain "r1" "cancelled" =
      (dbMain, .error ⟨400,
        "Invalid status. Must be one of: ['planned', 'in_progress', 'completed']"⟩) ∧
    update_route_status dbMain "r9" "planned" =
      (dbMain, .error ⟨404, "Delivery route not found"⟩) ∧
    (update_route_status dbMain "r1" "in_progress").1.shipments =
      dbMain.shipments.map (fun s =>
        if routeR1.shipments.contains s.id then { s with status := "in_transit" } else s) ∧
    (update_route_status dbMain "r1" "completed").1.shipments = dbMain.shipments := by
  have h1 := update_route_status_errors_and_cascade dbMain "r1" "cancelled"
  have h9 := update_route_status_errors_and_cascade dbMain "r9" "planned"
  have hip := update_route_status_errors_and_cascade dbMain "r1" "in_progress"
  have hc := update_route_status_errors_and_cascade dbMain "r1" "completed"
  refine ⟨h1.1 (by decide), h9.2.1 (Or.inl rfl) rfl, ?_, ?_⟩
  · exact (hip.2.2 routeR1 rfl).1 rfl
  · exact (hc.2.2 routeR1 rfl).2 (Or.inr rfl)

/-- C10: `update_route_status` enforces no transition order: from any current
`route_status`, any status in the valid set succeeds (so `completed →
planned` is accepted), and setting `"in_progress"` (again) re-runs the
cascade, rewriting every member shipment to `"in_transit"` whatever its
current status. -/
theorem update_route_status_no_transition_order (db : DB) (rid st : String)
    (r : DeliveryRoute) (hr : db.routes.find? (fun t => t.id == rid) = some r)
    (hst : st = "planned" ∨ st = "in_progress" ∨ st = "completed") :
    (update_route_status db rid st).2 = .ok { r with route_status := st } ∧
    (st = "in_progress" →
      (update_route_status db rid st).1.shipments =
        db.shipments.map (fun s =>
          if r.shipments.contains s.id then { s with status := "in_transit" } else s)) := by
  rcases hst with rfl | rfl | rfl
  · rw [update_route_status_eq_no_cascade db rid "planned" r hr (Or.inl rfl)]
    exact ⟨rfl, by intro h; exact absurd h (by decide)⟩
  · rw [update_route_status_eq_in_progress db rid r hr]
    exact ⟨rfl, fun _ => rfl⟩
  · rw [update_route_status_eq_no_cascade db rid "completed" r hr (Or.inr rfl)]
    exact ⟨rfl, by intro h; exact absurd h (by decide)⟩

/-- C10 witness: `routeR1` is `"completed"`, yet setting it back to
`"planned"` succeeds, and setting `"in_progress"` rewrites its member `s3`
(currently `"delivered"`) back to `"in_transit"`. -/
theorem update_route_status_no_transition_order_witness :
    routeR1.route_status = "completed" ∧
    (update_route_status dbMain "r1" "planned").2 =
      .ok { routeR1 with route_status := "planned" } ∧
    shipDone.status = "delivered" ∧
    (update_route_status dbMain "r1" "in_progress").1.shipments.find?
        (fun t => t.id == "s3") =
      some { shipDone with status := "in_transit" } := by
  have hp := update_route_status_no_transition_order dbMain "r1" "planned"
    routeR1 rfl (Or.inl rfl)
  have hip := update_route_status_no_transition_order dbMain "r1" "in_progress"
    routeR1 rfl (Or.inr (Or.inl rfl))
  refine ⟨rfl, hp.1, rfl, ?_⟩
  rw [hip.2 rfl]
  rfl

end ECommerce
